import Mathlib

/-!
Shallow embedding of the Telegram channel-administration bot in `src/main.py`.

The program is a set of command handlers over three MongoDB collections
(setups, per-channel added-bot membership, audit logs) plus calls into the
messaging-platform client (pyrogram).  External platform calls are modelled
by an explicit environment (`PlatformEnv`) of response functions, and every
platform call a handler issues is recorded in an explicit trace.  Timestamps
(`datetime.utcnow()`) are modelled as an explicit `now : Int` parameter
(seconds).  Python exceptions are modelled by the `PyErr` type and fallible
calls by `Except PyErr`.
-/

namespace GitaBot

/-- The exception classes handled by the program (from
`pyrogram.errors` plus builtin Python exceptions).  `other` stands for any
exception class the code does not name. -/
inductive PyErr where
  | floodWait (seconds : Nat)
  | chatAdminRequired
  | userNotParticipant
  | userPrivacyRestricted
  | peerIdInvalid
  | valueError (msg : String)
  | other (msg : String)
deriving DecidableEq

/-- Models Python `str(e)`: the message text of an exception. -/
def errStr : PyErr → String
  | .floodWait n => "A wait of " ++ toString n ++ " seconds is required"
  | .chatAdminRequired => "CHAT_ADMIN_REQUIRED"
  | .userNotParticipant => "USER_NOT_PARTICIPANT"
  | .userPrivacyRestricted => "USER_PRIVACY_RESTRICTED"
  | .peerIdInvalid => "PEER_ID_INVALID"
  | .valueError m => m
  | .other m => m

/-- Models the Python slice `s[:50]` (first 50 characters). -/
def pyTake50 (s : String) : String := (s.toList.take 50).asString

/-- Models Python `str.strip()`: drops whitespace from both ends. -/
def pyStrip (s : String) : String :=
  ((((s.toList).dropWhile Char.isWhitespace).reverse.dropWhile
    Char.isWhitespace).reverse).asString

/-- Splits a character list at every occurrence of the separator, keeping
empty pieces, like Python `str.split(sep)`. -/
def splitChars (sep : Char) : List Char → List (List Char)
  | [] => [[]]
  | c :: rest =>
    let r := splitChars sep rest
    if c = sep then [] :: r
    else
      match r with
      | h :: t => (c :: h) :: t
      | [] => [[c]]

/-- Models Python `s.split(',')`. -/
def pySplitComma (s : String) : List String :=
  (splitChars ',' s.toList).map List.asString

/-- Models Python `s.startswith('@')`. -/
def startsWithAt (s : String) : Bool :=
  match s.toList with
  | c :: _ => c = '@'
  | [] => false

/-- A digit character's numeric value. -/
def digitVal (c : Char) : Option Nat :=
  if c.isDigit then some (c.toNat - 48) else none

/-- Models Python `int(s)`: strips surrounding whitespace, accepts an
optional sign followed by one or more digits; anything else raises
`ValueError` (modelled by `none`). -/
def pyInt (s : String) : Option Int :=
  let chars :=
    match (pyStrip s).toList with
    | '-' :: rest => (true, rest)
    | '+' :: rest => (false, rest)
    | l => (false, l)
  if chars.2 = [] then none
  else
    (chars.2.foldl (fun acc c =>
      match acc, digitVal c with
      | some n, some d => some (n * 10 + d)
      | _, _ => none) (some 0)).map
      (fun n => if chars.1 then -(n : Int) else (n : Int))

/-- A pyrogram user object, as the handlers use it. -/
structure UserInfo where
  id : Int
  username : Option String
  first_name : String
  is_bot : Bool
deriving DecidableEq

/-- The admin privileges `verify_bot_permissions` inspects. -/
structure ChatPrivileges where
  can_manage_chat : Bool
  can_delete_messages : Bool
  can_promote_members : Bool
deriving DecidableEq

/-- A pyrogram chat-member object, as `verify_bot_permissions` uses it. -/
structure ChatMember where
  status : String
  privileges : ChatPrivileges
deriving DecidableEq

/-- One document of the `active_setups` collection (all documents carry the
single configured `owner`, so the owner field is left implicit). -/
structure Setup where
  channel_id : String
  channel : String
  post_link : String
  max_bots : Int
  is_active : Bool
  updated_at : Int
deriving DecidableEq

/-- One document of the `added_bots` collection, keyed by `channel_id`. -/
structure MembershipDoc where
  bots : List Int
  last_bot_username : String
  updated_at : Int
deriving DecidableEq

/-- The `added_bots` collection: at most one document per channel key. -/
abbrev MembStore := String → Option MembershipDoc

/-- Payload of one `bot_logs` entry; one constructor per `log_action` call
site in the source. -/
inductive AuditDetails where
  | setupSaved (channel_id : String) (channel : String) (is_active : Bool)
  | channelSetForward (channel_id : String) (channel : String)
  | channelAddedManual (channel_id : String) (channel : String)
  | statusViewed (channels_count : Nat)
  | botsListed (channel_id : String) (count : Nat)
  | botRemoved (channel_id : String) (bot_id : Int)
  | botBulkAdded (channel_id : String) (bot_id : Int) (bot_username : String)
  | botAdded (channel_id : String) (bot_id : Int) (bot_username : String)
  | logsCleared (days : Int) (deleted : Nat)
deriving DecidableEq

/-- The `action` tag string `log_action` stores for each payload. -/
def AuditDetails.action : AuditDetails → String
  | .setupSaved _ _ _ => "setup_saved"
  | .channelSetForward _ _ => "channel_set_forward"
  | .channelAddedManual _ _ => "channel_added_manual"
  | .statusViewed _ => "status_viewed"
  | .botsListed _ _ => "bots_listed"
  | .botRemoved _ _ => "bot_removed"
  | .botBulkAdded _ _ _ => "bot_bulk_added"
  | .botAdded _ _ _ => "bot_added"
  | .logsCleared _ _ => "logs_cleared"

/-- One document of the `bot_logs` collection (`log_action` in the source;
`owner_id` is the single configured owner, left implicit). -/
structure AuditEntry where
  timestamp : Int
  details : AuditDetails
deriving DecidableEq

/-- One entry of the list built by `get_added_bots_list`. -/
structure BotEntry where
  id : Int
  username : Option String
  first_name : String
deriving DecidableEq

/-- A call into the messaging platform (pyrogram client), recorded in the
traces so that "no platform call is made" claims can be stated. -/
inductive PlatformCall where
  | getUsersByName (username : String)
  | getUsersById (bot_id : Int)
  | promoteChatMember (chat : String) (uid : Int) (grant : Bool)
  | getChatMember (chat : String) (uid : Int)
deriving DecidableEq

/-- The platform client's responses, as an environment of functions:
`getUsers` for `app.get_users(username)`, `lookupId` for
`app.get_users(bot_id)` inside `get_added_bots_list`, `promoteResult` for
`promote_chat_member` granting rights, `demoteResult` for
`promote_chat_member` revoking rights, `getChatMember` for
`app.get_chat_member`. -/
structure PlatformEnv where
  getUsers : String → Except PyErr UserInfo
  lookupId : Int → Except PyErr UserInfo
  promoteResult : String → Int → Except PyErr Unit
  demoteResult : String → Int → Except PyErr Unit
  getChatMember : String → Int → Except PyErr ChatMember

/-- The user-visible replies the modelled handlers can produce; one
constructor per `reply` / `edit` call site, carrying the dynamic data the
source interpolates into the message text. -/
inductive Reply where
  | noChannelSelected
  | capacityFull (available_slots : Int) (max_bots : Int)
  | bulkSummary (success : Nat) (failedCount : Nat) (channel : String) (post_link : Option String)
  | bulkFailures (entries : List String)
  | bulkNoSuccess
  | singleNoActiveChannel
  | singleChannelFull (max_bots : Int)
  | notABot
  | alreadyAdded
  | singleAdded (username : String) (channel : Option String) (post_link : Option String)
  | singleVerifyFailed
  | singleAddFailed
  | removeInvalidUsername
  | removedOk (username : String) (channel : String)
  | removedButDemoteFailed (username : String)
  | removeNotFound
  | listEmpty
  | listText (channel : String) (bots : List BotEntry)
  | clearedLogs (deleted : Nat) (days : Int)
deriving DecidableEq

/-- Python truthiness test `not channel_id` for an optional string:
`None` and the empty string are falsy. -/
def strFalsy : Option String → Bool
  | none => true
  | some s => s == ""

/-- The `@`-prefix normalisation both add handlers apply to a username. -/
def normalizeUsername (u : String) : String :=
  if startsWithAt u then u else "@" ++ u

/-- `get_active_setup`: the setup flagged active, else the first setup, else
a none sentinel; returns the source's tuple
`(channel, post_link, channel_id, max_bots)` in that order. -/
def get_active_setup (docs : List Setup) :
    Option String × Option String × Option String × Int :=
  match docs.find? (fun d => d.is_active) with
  | some d => (some d.channel, some d.post_link, some d.channel_id, d.max_bots)
  | none =>
    match docs with
    | [] => (none, none, none, 20)
    | d :: _ => (some d.channel, some d.post_link, some d.channel_id, d.max_bots)

/-- The `update_one(..., upsert=True)` step of `save_setup`: replaces the
fields of the first document matching `channel_id`, or appends a new
document when none matches. -/
def upsert_setup (docs : List Setup) (cid chan link : String) (mb : Int)
    (act : Bool) (now : Int) : List Setup :=
  match docs with
  | [] => [⟨cid, chan, link, mb, act, now⟩]
  | d :: rest =>
    if d.channel_id = cid then ⟨cid, chan, link, mb, act, now⟩ :: rest
    else d :: upsert_setup rest cid chan link mb act now

/-- The `update_many` step of `save_setup`: clears `is_active` on every
document whose `channel_id` differs from the target. -/
def deactivate_others (docs : List Setup) (cid : String) : List Setup :=
  docs.map (fun d => if d.channel_id ≠ cid then { d with is_active := false } else d)

/-- `save_setup`: upsert the document, then (when activating) deactivate all
other setups, then append a `setup_saved` audit entry. -/
def save_setup (docs : List Setup) (audit : List AuditEntry)
    (cid chan link : String) (mb : Int) (act : Bool) (now : Int) :
    List Setup × List AuditEntry :=
  let docs1 := upsert_setup docs cid chan link mb act now
  let docs2 := if act then deactivate_others docs1 cid else docs1
  (docs2, audit ++ [⟨now, .setupSaved cid chan act⟩])

/-- `set_active_channel`: `save_setup(channel_id, "", "", is_active=True)`
(note: the default `max_bots=20` applies). -/
def set_active_channel (docs : List Setup) (audit : List AuditEntry)
    (cid : String) (now : Int) : List Setup × List AuditEntry :=
  save_setup docs audit cid "" "" 20 true now

/-- `get_added_bots_count`: size of the channel's bot array, 0 if the
document does not exist. -/
def get_added_bots_count (s : MembStore) (cid : String) : Nat :=
  match s cid with
  | some d => d.bots.length
  | none => 0

/-- `get_added_bots_list`: resolves each tracked id via the platform
(`app.get_users(bot_id)`); a failed lookup yields the
`unknown`/`Unknown` placeholder.  Also returns the platform calls made. -/
def get_added_bots_list (env : PlatformEnv) (s : MembStore) (cid : String) :
    List BotEntry × List PlatformCall :=
  match s cid with
  | some d =>
    if d.bots ≠ [] then
      (d.bots.map (fun bid =>
        match env.lookupId bid with
        | .ok u => ⟨bid, u.username, u.first_name⟩
        | .error _ => ⟨bid, some "unknown", "Unknown"⟩),
       d.bots.map (fun bid => .getUsersById bid))
    else ([], [])
  | none => ([], [])

/-- `add_bot_to_channel`: `$addToSet` of the bot id plus `$set` of
`updated_at` and `last_bot_username`, with upsert. -/
def add_bot_to_channel (s : MembStore) (cid : String) (bid : Int)
    (uname : String) (now : Int) : MembStore :=
  fun c =>
    if c = cid then
      match s cid with
      | some d =>
        some { bots := if bid ∈ d.bots then d.bots else d.bots ++ [bid],
               last_bot_username := uname, updated_at := now }
      | none => some { bots := [bid], last_bot_username := uname, updated_at := now }
    else s c

/-- `remove_bot_from_channel`: `update_one` with `$pull` of the bot id and
`$set` of `updated_at` (no upsert); returns the new store together with
`modified_count > 0`.  A document counts as modified when the stored value
actually changed, i.e. when the pull removed something or the `$set` gave
`updated_at` a different value. -/
def remove_bot_from_channel (s : MembStore) (cid : String) (bid : Int)
    (now : Int) : MembStore × Bool :=
  match s cid with
  | none => (s, false)
  | some d =>
    let newBots := d.bots.filter (fun b => b ≠ bid)
    let s1 : MembStore := fun c =>
      if c = cid then
        some { bots := newBots, last_bot_username := d.last_bot_username,
               updated_at := now }
      else s c
    (s1, decide (bid ∈ d.bots) || decide (d.updated_at ≠ now))

/-- `verify_bot_permissions`: fetches the member and requires administrator
status plus the three privileges; any exception yields `false`. -/
def verify_bot_permissions (env : PlatformEnv) (cid : String) (bid : Int) : Bool :=
  match env.getChatMember cid bid with
  | .error _ => false
  | .ok m =>
    (m.status == "administrator") && m.privileges.can_manage_chat &&
      m.privileges.can_delete_messages && m.privileges.can_promote_members

/-- Outcome of one attempt of a wrapped handler body: it either returns or
raises an exception.  The `error_handler` decorator is modelled over the
list of outcomes of the successive attempts it makes. -/
inductive FuncOutcome where
  | ok
  | raise (e : PyErr)
deriving DecidableEq

/-- What the `error_handler` wrapper ends with. -/
inductive WrapResult where
  | returned
  | permMsg
  | invalidMsg
  | genericMsg
  | exhausted
deriving DecidableEq

/-- The `error_handler` decorator: runs the wrapped body; on `FloodWait` it
sleeps the signalled seconds and re-invokes the wrapper itself on the next
outcome; the permission classes and `PeerIdInvalid` produce their fixed
messages; any other exception produces the generic failure message.
Returns (number of attempts made, sleeps performed, final result);
`exhausted` means the supplied outcome list ran out while still retrying. -/
def error_handler_run : List FuncOutcome → Nat × List Nat × WrapResult
  | [] => (0, [], .exhausted)
  | .ok :: _ => (1, [], .returned)
  | .raise e :: rest =>
    match e with
    | .floodWait n =>
      let r := error_handler_run rest
      (r.1 + 1, n :: r.2.1, r.2.2)
    | .chatAdminRequired => (1, [], .permMsg)
    | .userNotParticipant => (1, [], .permMsg)
    | .userPrivacyRestricted => (1, [], .permMsg)
    | .peerIdInvalid => (1, [], .invalidMsg)
    | .valueError _ => (1, [], .genericMsg)
    | .other _ => (1, [], .genericMsg)

/-- Accumulator of the `bulkadd` candidate loop: the membership store, the
audit log, the success counter, the failure list, and the trace of platform
calls made so far. -/
structure BulkAcc where
  memb : MembStore
  audit : List AuditEntry
  success : Nat
  failed : List String
  trace : List PlatformCall

/-- One iteration of the `bulkadd` candidate loop: normalise the username;
resolve it (`get_users`); require a bot account; check for a duplicate via
`get_added_bots_list`; promote; verify; on verified success persist
membership and append the audit entry.  Any exception raised inside the
iteration is caught and recorded as `username: str(e)[:50]`. -/
def bulk_step (env : PlatformEnv) (cid : String) (now : Int)
    (acc : BulkAcc) (raw : String) : BulkAcc :=
  let username := normalizeUsername raw
  match env.getUsers username with
  | .error e =>
    { acc with failed := acc.failed ++ [username ++ ": " ++ pyTake50 (errStr e)],
               trace := acc.trace ++ [.getUsersByName username] }
  | .ok user =>
    if !user.is_bot then
      { acc with failed := acc.failed ++ [username ++ ": Not a bot"],
                 trace := acc.trace ++ [.getUsersByName username] }
    else
      let looked := get_added_bots_list env acc.memb cid
      if looked.1.any (fun b => b.id == user.id) then
        { acc with failed := acc.failed ++ [username ++ ": Already added"],
                   trace := acc.trace ++ [.getUsersByName username] ++ looked.2 }
      else
        match env.promoteResult cid user.id with
        | .error e =>
          { acc with
              failed := acc.failed ++ [username ++ ": " ++ pyTake50 (errStr e)],
              trace := acc.trace ++ [.getUsersByName username] ++ looked.2 ++
                [.promoteChatMember cid user.id true] }
        | .ok _ =>
          let tr := acc.trace ++ [.getUsersByName username] ++ looked.2 ++
            [.promoteChatMember cid user.id true, .getChatMember cid user.id]
          if !verify_bot_permissions env cid user.id then
            { acc with
                failed := acc.failed ++ [username ++ ": Promotion failed (verify perms)"],
                trace := tr }
          else
            { memb := add_bot_to_channel acc.memb cid user.id username now,
              audit := acc.audit ++ [⟨now, .botBulkAdded cid user.id username⟩],
              success := acc.success + 1,
              failed := acc.failed,
              trace := tr }

/-- The candidate list `/bulkadd` parses from its first argument:
split on commas and strip each piece. -/
def bulkBotList (rawArg : String) : List String :=
  (pySplitComma rawArg).map (fun s => pyStrip s)

/-- The channel key `/bulkadd` (and `/removebot`, `/listbots`) operates on:
the explicit second argument when given, otherwise the FIRST component of
the `get_active_setup` tuple.  That first component is the channel display
name, not the `channel_id` (the handlers unpack the tuple as
`channel_id, ... = await get_active_setup()`). -/
def commandChanKey (setups : List Setup) (explicit : Option String) :
    Option String :=
  match explicit with
  | some c => some c
  | none => (get_active_setup setups).1

/-- Result of a `/bulkadd` invocation. -/
structure BulkOut where
  memb : MembStore
  audit : List AuditEntry
  success : Nat
  failed : List String
  replies : List Reply
  trace : List PlatformCall

/-- The `/bulkadd` handler body (after the usage check has passed, so the
comma list argument is present).  `explicit` is the optional third word of
the command.  The capacity check runs before the candidate loop; the final
messages report the summary when at least one candidate succeeded, plus the
failure list when it is nonempty, and otherwise only the no-success
message. -/
def bulk_add_bots (env : PlatformEnv) (setups : List Setup) (memb : MembStore)
    (audit : List AuditEntry) (rawArg : String) (explicit : Option String)
    (now : Int) : BulkOut :=
  let bot_list := bulkBotList rawArg
  let gas := get_active_setup setups
  let post_link := gas.2.1
  let max_bots := gas.2.2.2
  let chanKey := commandChanKey setups explicit
  if strFalsy chanKey then
    ⟨memb, audit, 0, [], [.noChannelSelected], []⟩
  else
    let cid := chanKey.getD ""
    let current_count := get_added_bots_count memb cid
    let available_slots : Int := max_bots - current_count
    if (bot_list.length : Int) > available_slots then
      ⟨memb, audit, 0, [], [.capacityFull available_slots max_bots], []⟩
    else
      let acc := bot_list.foldl (bulk_step env cid now)
        ⟨memb, audit, 0, [], []⟩
      let replies :=
        if acc.success > 0 then
          [Reply.bulkSummary acc.success acc.failed.length cid post_link] ++
            (if acc.failed = [] then [] else [Reply.bulkFailures acc.failed])
        else [Reply.bulkNoSuccess]
      ⟨acc.memb, acc.audit, acc.success, acc.failed, replies, acc.trace⟩

/-- Result of a single-add (free-text) invocation. -/
structure SingleOut where
  memb : MembStore
  audit : List AuditEntry
  replies : List Reply
  trace : List PlatformCall

/-- The free-text single-add handler `add_bot_as_admin`: strip and
`@`-normalise the text; require an active channel (this handler unpacks the
`get_active_setup` tuple in the correct order, so the key is the real
`channel_id`); reject when the channel is full; then resolve, require a bot,
check duplicates, promote, verify, and persist plus audit only on verified
success.  Exceptions inside the try block produce the logged-failure
reply. -/
def add_bot_as_admin (env : PlatformEnv) (setups : List Setup)
    (memb : MembStore) (audit : List AuditEntry) (text : String) (now : Int) :
    SingleOut :=
  let username := normalizeUsername (pyStrip text)
  let gas := get_active_setup setups
  let channel := gas.1
  let post_link := gas.2.1
  let channel_id := gas.2.2.1
  let max_bots := gas.2.2.2
  if strFalsy channel_id then
    ⟨memb, audit, [.singleNoActiveChannel], []⟩
  else
    let cid := channel_id.getD ""
    let count := get_added_bots_count memb cid
    if (count : Int) ≥ max_bots then
      ⟨memb, audit, [.singleChannelFull max_bots], []⟩
    else
      match env.getUsers username with
      | .error _ =>
        ⟨memb, audit, [.singleAddFailed], [.getUsersByName username]⟩
      | .ok user =>
        if !user.is_bot then
          ⟨memb, audit, [.notABot], [.getUsersByName username]⟩
        else
          let looked := get_added_bots_list env memb cid
          if looked.1.any (fun b => b.id == user.id) then
            ⟨memb, audit, [.alreadyAdded], [.getUsersByName username] ++ looked.2⟩
          else
            match env.promoteResult cid user.id with
            | .error _ =>
              ⟨memb, audit, [.singleAddFailed],
                [.getUsersByName username] ++ looked.2 ++
                  [.promoteChatMember cid user.id true]⟩
            | .ok _ =>
              let tr := [PlatformCall.getUsersByName username] ++ looked.2 ++
                [.promoteChatMember cid user.id true, .getChatMember cid user.id]
              if verify_bot_permissions env cid user.id then
                ⟨add_bot_to_channel memb cid user.id username now,
                 audit ++ [⟨now, .botAdded cid user.id username⟩],
                 [.singleAdded username channel post_link], tr⟩
              else
                ⟨memb, audit, [.singleVerifyFailed], tr⟩

/-- The `/removebot` handler body (after the usage check): channel key as
for `/bulkadd` (display name unless an explicit argument is given); resolve
the username; call `remove_bot_from_channel`; when it reports a removal,
attempt the platform demotion (best effort) and append the `bot_removed`
audit entry; otherwise reply not-found. -/
def remove_bot (env : PlatformEnv) (setups : List Setup) (memb : MembStore)
    (audit : List AuditEntry) (bot_username : String)
    (explicit : Option String) (now : Int) :
    MembStore × List AuditEntry × List Reply :=
  let chanKey := commandChanKey setups explicit
  if strFalsy chanKey then
    (memb, audit, [.noChannelSelected])
  else
    let cid := chanKey.getD ""
    match env.getUsers bot_username with
    | .error _ => (memb, audit, [.removeInvalidUsername])
    | .ok user =>
      let rem := remove_bot_from_channel memb cid user.id now
      if rem.2 then
        match env.demoteResult cid user.id with
        | .ok _ =>
          (rem.1, audit ++ [⟨now, .botRemoved cid user.id⟩],
            [.removedOk bot_username cid])
        | .error _ =>
          (rem.1, audit ++ [⟨now, .botRemoved cid user.id⟩],
            [.removedButDemoteFailed bot_username])
      else (rem.1, audit, [.removeNotFound])

/-- Result of a `/listbots` invocation: the membership key it used, the
audit log, and the replies. -/
structure ListOut where
  key : Option String
  audit : List AuditEntry
  replies : List Reply

/-- The `/listbots` handler: channel key as for `/bulkadd` (the display
name from the first tuple slot unless an explicit argument is given); list
the tracked bots under that key; reply with the list (and log) or with the
empty message. -/
def list_bots (env : PlatformEnv) (setups : List Setup) (memb : MembStore)
    (audit : List AuditEntry) (arg : Option String) (now : Int) : ListOut :=
  let chanKey := commandChanKey setups arg
  if strFalsy chanKey then
    ⟨chanKey, audit, [.noChannelSelected]⟩
  else
    let cid := chanKey.getD ""
    let bots := (get_added_bots_list env memb cid).1
    if bots = [] then ⟨some cid, audit, [.listEmpty]⟩
    else
      ⟨some cid, audit ++ [⟨now, .botsListed cid bots.length⟩],
        [.listText cid bots]⟩

/-- The `/clearlogs` handler.  It is registered WITHOUT the `error_handler`
decorator (source lines 511-512), so an exception it raises propagates out
of the handler; `int(message.command[1])` raises `ValueError` on a
non-numeric argument.  On success it deletes every log entry with timestamp
strictly before `now - days * 86400` seconds, replies with the deleted
count, and appends the `logs_cleared` entry. -/
def clear_logs (cmdArgs : List String) (logs : List AuditEntry) (now : Int) :
    Except PyErr (List AuditEntry × Nat × List Reply) :=
  let daysOpt : Except PyErr Int :=
    match cmdArgs with
    | [] => .ok 30
    | a :: _ =>
      match pyInt a with
      | none => .error (.valueError a)
      | some d => .ok d
  match daysOpt with
  | .error e => .error e
  | .ok days =>
    let cutoff := now - days * 86400
    let deleted := (logs.filter (fun e => decide (e.timestamp < cutoff))).length
    let remaining := logs.filter (fun e => decide (¬ e.timestamp < cutoff))
    .ok (remaining ++ [⟨now, .logsCleared days deleted⟩], deleted,
      [.clearedLogs deleted days])

/-! ## Concrete fixtures used by witnesses and counterexamples -/

/-- A concrete bot account. -/
def userX : UserInfo := ⟨501, some "x_bot", "X", true⟩

/-- An administrator member holding all three checked privileges. -/
def adminMember : ChatMember := ⟨"administrator", ⟨true, true, true⟩⟩

/-- Platform environment in which every call succeeds and verification
passes. -/
def envOk : PlatformEnv :=
  { getUsers := fun _ => .ok userX,
    lookupId := fun i => .ok ⟨i, some "b", "B", true⟩,
    promoteResult := fun _ _ => .ok (),
    demoteResult := fun _ _ => .ok (),
    getChatMember := fun _ _ => .ok adminMember }

/-- Platform environment in which promotion succeeds but the verification
lookup fails, so `verify_bot_permissions` returns false. -/
def envVerifyFails : PlatformEnv :=
  { envOk with getChatMember := fun _ _ => .error .userNotParticipant }

/-- Platform environment in which resolving any username raises. -/
def envResolveFails : PlatformEnv :=
  { envOk with getUsers := fun _ => .error (.other "boom") }

/-- An empty membership store. -/
def emptyMemb : MembStore := fun _ => none

/-- A membership store holding exactly the bot 111 for channel key ch,
last updated at time 0. -/
def membCh111 : MembStore :=
  fun c => if c = "ch" then some ⟨[111], "@u", 0⟩ else none

/-- A setup whose display name differs from its channel id (the channel has
a username, so the forward handler stores the `@`-handle as the display and
the numeric id as `channel_id`). -/
def setupMyChannel : Setup := ⟨"-1001", "@mychannel", "link", 20, true, 0⟩

/-- A setup whose display name is the string ch and whose id is chid. -/
def setupCh : Setup := ⟨"chid", "ch", "plink", 20, true, 0⟩

/-- An empty bulk accumulator starting from the empty stores. -/
def emptyAcc : BulkAcc := ⟨emptyMemb, [], 0, [], []⟩

/-- A membership store holding bot 7 under the key -1001 (the channel id of
`setupMyChannel`). -/
def memb1001 : MembStore :=
  fun c => if c = "-1001" then some ⟨[7], "@b", 0⟩ else none

/-- A membership store holding five bots for channel key ch. -/
def membCh5 : MembStore :=
  fun c => if c = "ch" then some ⟨[1, 2, 3, 4, 5], "@u", 0⟩ else none

/-- Whether a reply carries a free-slot count.  `capacityFull` is the only
reply constructor with an available-slots field, mirroring the source: the
bulk rejection message interpolates `available_slots` while the single-add
rejection message interpolates only `max_bots`. -/
def reportsFreeSlots : Reply → Bool
  | .capacityFull _ _ => true
  | _ => false

/-- The bots currently stored for a channel key (empty when no document
exists). -/
def membBots (s : MembStore) (cid : String) : List Int :=
  match s cid with
  | some d => d.bots
  | none => []

/-! ## Claim theorems -/

/-- Claim C2 (code evaluated at the failing input): the membership-store
remove operation does NOT return removed-iff-present.  With the channel
document holding only bot 111 (last updated at time 0), removing the
never-added bot 222 at time 5 returns `true`, because the update's `$set`
of `updated_at` alone modifies the document and the code tests
`modified_count > 0`.  Consequently the `/removebot` handler (here with the
resolved account id 501, also never added) replies with the success message
and appends a `bot_removed` audit entry for an account that was never in
the added list, instead of reporting not-found. -/
theorem remove_absent_account_reports_removed :
    membCh111 "ch" = some ⟨[111], "@u", 0⟩
    ∧ (222 : Int) ∉ ([111] : List Int)
    ∧ (remove_bot_from_channel membCh111 "ch" 222 5).2 = true
    ∧ ((remove_bot_from_channel membCh111 "ch" 222 5).1 "ch").map
        MembershipDoc.bots = some [111]
    ∧ envOk.getUsers "@ghost" = .ok userX
    ∧ userX.id ∉ membBots membCh111 "ch"
    ∧ (remove_bot envOk [setupCh] membCh111 [] "@ghost" none 5).2.2
        = [.removedOk "@ghost" "ch"]
    ∧ (remove_bot envOk [setupCh] membCh111 [] "@ghost" none 5).2.1
        = [⟨5, .botRemoved "ch" 501⟩] := by
  refine ⟨by decide, by decide, by decide, by decide, rfl, by decide,
    by decide, by decide⟩

/-- Claim C4 (counterexample): after a second consecutive rate-limit signal
the handler DOES retry again.  With the wrapped body raising `FloodWait`
twice and then returning, the wrapper makes three attempts (sleeping 1 and
then 2 seconds), whereas the claim allows at most the one retry after the
first signal. -/
theorem flood_wait_second_signal_retries_again :
    error_handler_run [.raise (.floodWait 1), .raise (.floodWait 2), .ok]
      = (3, [1, 2], .returned)
    ∧ 2 < (error_handler_run
        [.raise (.floodWait 1), .raise (.floodWait 2), .ok]).1 := by
  exact ⟨by decide, by decide⟩

/-- Claim C4 (amended): a rate-limit signal makes the handler sleep for the
signalled duration and retry by re-entering the wrapper itself, so EVERY
consecutive rate-limit signal triggers another sleep and another retry,
without any bound: a prefix of k flood-wait signals yields k sleeps of the
signalled durations and k additional attempts before the remaining
outcomes are processed. -/
theorem flood_wait_sleeps_and_retries_unbounded (waits : List Nat)
    (rest : List FuncOutcome) :
    error_handler_run
        ((waits.map (fun n => FuncOutcome.raise (.floodWait n))) ++ rest)
      = ((error_handler_run rest).1 + waits.length,
         waits ++ (error_handler_run rest).2.1,
         (error_handler_run rest).2.2) := by
  induction waits with
  | nil => simp
  | cons w ws ih =>
    simp [error_handler_run, ih, Nat.add_assoc, Nat.add_comm]

/-- Claim C7: `add_bot_to_channel` is an idempotent set-insert.  Adding the
same account a second time (with any later username and timestamp) leaves
the stored bot list exactly as after the first add, in particular its size;
and each call stores its own `last_bot_username`. -/
theorem add_bot_to_channel_idempotent (s : MembStore) (cid : String)
    (bid : Int) (u u2 : String) (n n2 : Int) :
    membBots (add_bot_to_channel (add_bot_to_channel s cid bid u n) cid bid u2 n2) cid
      = membBots (add_bot_to_channel s cid bid u n) cid
    ∧ (membBots (add_bot_to_channel (add_bot_to_channel s cid bid u n) cid bid u2 n2) cid).length
      = (membBots (add_bot_to_channel s cid bid u n) cid).length
    ∧ ((add_bot_to_channel (add_bot_to_channel s cid bid u n) cid bid u2 n2) cid).map
        MembershipDoc.last_bot_username = some u2
    ∧ ((add_bot_to_channel s cid bid u n) cid).map
        MembershipDoc.last_bot_username = some u := by
  cases hd : s cid with
  | none =>
    refine ⟨?_, ?_, ?_, ?_⟩ <;>
      simp [membBots, add_bot_to_channel, hd]
  | some d =>
    by_cases hb : bid ∈ d.bots <;>
      refine ⟨?_, ?_, ?_, ?_⟩ <;>
        simp [membBots, add_bot_to_channel, hd, hb]

/-- Claim C8 (code evaluated at the failing input): `/listbots` without an
argument does not use the active setup's `channel_id` as the membership
key.  The handler unpacks `channel_id, _, _, _ = get_active_setup()` but
the tuple's first component is the channel display name, so with the active
setup having display `@mychannel` and id `-1001`, and one bot tracked
under the key `-1001` (as the single-add workflow stores it), the listing
reads the key `@mychannel` and reports that no bots were added. -/
theorem listbots_defaults_to_display_name_key :
    setupMyChannel.is_active = true
    ∧ setupMyChannel.channel_id = "-1001"
    ∧ setupMyChannel.channel = "@mychannel"
    ∧ (list_bots envOk [setupMyChannel] memb1001 [] none 1).key
        = some "@mychannel"
    ∧ ("@mychannel" : String) ≠ "-1001"
    ∧ get_added_bots_count memb1001 "-1001" = 1
    ∧ (list_bots envOk [setupMyChannel] memb1001 [] none 1).replies
        = [.listEmpty]
    ∧ membBots (add_bot_as_admin envOk [setupMyChannel] emptyMemb [] "x" 0).memb
        "-1001" = [userX.id] := by
  refine ⟨rfl, rfl, rfl, by decide, by decide, by decide, by decide, by decide⟩

/-- Claim C9 (counterexample): the `/clearlogs` handler is registered
without the `error_handler` decorator, so `/clearlogs abc` raises an
uncaught `ValueError` out of the handler instead of showing the user a
generic failure message. -/
theorem clearlogs_nonnumeric_arg_raises :
    clear_logs ["abc"] [] 0 = .error (.valueError "abc") := rfl

/-- Claim C9 (amended): every exception outside the specifically recovered
classes (rate-limit, the platform permission classes, invalid-target) that
reaches an `error_handler`-wrapped handler boundary is caught and replaced
by the generic failure message; but the `/clearlogs` handler is NOT wrapped
by `error_handler`, and for every non-numeric argument string it raises an
uncaught `ValueError`. -/
theorem error_handler_generic_but_clearlogs_unwrapped :
    (∀ (e : PyErr) (rest : List FuncOutcome),
      (∀ n, e ≠ .floodWait n) → e ≠ .chatAdminRequired →
      e ≠ .userNotParticipant → e ≠ .userPrivacyRestricted →
      e ≠ .peerIdInvalid →
      error_handler_run (.raise e :: rest) = (1, [], .genericMsg))
    ∧ (∀ (s : String) (restArgs : List String) (logs : List AuditEntry)
        (now : Int), pyInt s = none →
        clear_logs (s :: restArgs) logs now = .error (.valueError s)) := by
  constructor
  · intro e rest hf h1 h2 h3 h4
    cases e with
    | floodWait n => exact absurd rfl (hf n)
    | chatAdminRequired => exact absurd rfl h1
    | userNotParticipant => exact absurd rfl h2
    | userPrivacyRestricted => exact absurd rfl h3
    | peerIdInvalid => exact absurd rfl h4
    | valueError m => rfl
    | other m => rfl
  · intro s restArgs logs now h
    simp [clear_logs, h]

/-- Witness for the amended C9 theorem at a concrete exception and a
concrete non-numeric argument. -/
theorem error_handler_generic_but_clearlogs_unwrapped_witness :
    error_handler_run [.raise (.valueError "x")] = (1, [], .genericMsg)
    ∧ clear_logs ["abc"] [] 7 = .error (.valueError "abc") :=
  ⟨error_handler_generic_but_clearlogs_unwrapped.1 (.valueError "x") []
      (fun _ h => PyErr.noConfusion h) (by decide) (by decide) (by decide)
      (by decide),
    error_handler_generic_but_clearlogs_unwrapped.2 "abc" [] [] 7 (by decide)⟩

/-- Claim C1: in both the bulk-add and single-add workflows, a candidate
whose permission verification returns false is not persisted: the
membership store and the audit log are left unchanged (the first and third
conjuncts, which cover every non-success path of the candidate); and the
account is added to membership with an audit entry appended exactly when
all checks pass and verification returns true (the second and fourth
conjuncts). -/
theorem verification_gates_membership_persistence :
    (∀ (env : PlatformEnv) (cid : String) (now : Int) (acc : BulkAcc)
        (raw : String) (user : UserInfo),
      env.getUsers (normalizeUsername raw) = .ok user →
      verify_bot_permissions env cid user.id = false →
      (bulk_step env cid now acc raw).memb = acc.memb
        ∧ (bulk_step env cid now acc raw).audit = acc.audit)
    ∧ (∀ (env : PlatformEnv) (cid : String) (now : Int) (acc : BulkAcc)
        (raw : String) (user : UserInfo),
      env.getUsers (normalizeUsername raw) = .ok user →
      user.is_bot = true →
      ((get_added_bots_list env acc.memb cid).1.any
        (fun b => b.id == user.id)) = false →
      env.promoteResult cid user.id = .ok () →
      verify_bot_permissions env cid user.id = true →
      (bulk_step env cid now acc raw).memb
          = add_bot_to_channel acc.memb cid user.id (normalizeUsername raw) now
        ∧ (bulk_step env cid now acc raw).audit
          = acc.audit ++ [⟨now, .botBulkAdded cid user.id (normalizeUsername raw)⟩])
    ∧ (∀ (env : PlatformEnv) (setups : List Setup) (memb : MembStore)
        (audit : List AuditEntry) (text : String) (now : Int) (user : UserInfo),
      env.getUsers (normalizeUsername (pyStrip text)) = .ok user →
      verify_bot_permissions env ((get_active_setup setups).2.2.1.getD "")
        user.id = false →
      (add_bot_as_admin env setups memb audit text now).memb = memb
        ∧ (add_bot_as_admin env setups memb audit text now).audit = audit)
    ∧ (∀ (env : PlatformEnv) (setups : List Setup) (memb : MembStore)
        (audit : List AuditEntry) (text : String) (now : Int) (user : UserInfo),
      strFalsy (get_active_setup setups).2.2.1 = false →
      ((get_added_bots_count memb ((get_active_setup setups).2.2.1.getD "")) : Int)
        < (get_active_setup setups).2.2.2 →
      env.getUsers (normalizeUsername (pyStrip text)) = .ok user →
      user.is_bot = true →
      ((get_added_bots_list env memb ((get_active_setup setups).2.2.1.getD "")).1.any
        (fun b => b.id == user.id)) = false →
      env.promoteResult ((get_active_setup setups).2.2.1.getD "") user.id = .ok () →
      verify_bot_permissions env ((get_active_setup setups).2.2.1.getD "")
        user.id = true →
      (add_bot_as_admin env setups memb audit text now).memb
          = add_bot_to_channel memb ((get_active_setup setups).2.2.1.getD "")
              user.id (normalizeUsername (pyStrip text)) now
        ∧ (add_bot_as_admin env setups memb audit text now).audit
          = audit ++ [⟨now, .botAdded ((get_active_setup setups).2.2.1.getD "")
              user.id (normalizeUsername (pyStrip text))⟩]) := by
  refine ⟨?_, ?_, ?_, ?_⟩
  · intro env cid now acc raw user hres hv
    simp only [bulk_step, hres]
    cases hb : user.is_bot with
    | false => simp
    | true =>
      simp only [Bool.not_true, Bool.false_eq_true, if_false]
      cases hdup : (get_added_bots_list env acc.memb cid).1.any
          (fun b => b.id == user.id) with
      | true => simp
      | false =>
        simp only [Bool.false_eq_true, if_false]
        cases hp : env.promoteResult cid user.id with
        | error e => simp
        | ok _ => simp [hv]
  · intro env cid now acc raw user hres hb hdup hp hv
    simp only [bulk_step, hres, hb, hdup, hp, hv]
    simp
  · intro env setups memb audit text now user hres hv
    simp only [add_bot_as_admin]
    split
    · exact ⟨rfl, rfl⟩
    · split
      · exact ⟨rfl, rfl⟩
      · simp only [hres]
        cases hb : user.is_bot with
        | false => simp
        | true =>
          simp only [Bool.not_true, Bool.false_eq_true, if_false]
          split
          · exact ⟨rfl, rfl⟩
          · cases hp : env.promoteResult
                ((get_active_setup setups).2.2.1.getD "") user.id with
            | error e => simp
            | ok _ => simp [hv]
  · intro env setups memb audit text now user hchan hcap hres hb hdup hp hv
    simp only [add_bot_as_admin, hchan, Bool.false_eq_true, if_false,
      if_neg (not_le.mpr hcap), hres, hb, hdup, hp, hv]
    simp

/-- Witness for the C1 theorem: a concrete bulk candidate and a concrete
single-add in the verification-fails environment leave the stores
unchanged, and the same inputs in the all-succeeds environment persist the
account with an audit entry. -/
theorem verification_gates_membership_persistence_witness :
    ((bulk_step envVerifyFails "ch" 0 emptyAcc "x").memb = emptyAcc.memb
      ∧ (bulk_step envVerifyFails "ch" 0 emptyAcc "x").audit = emptyAcc.audit)
    ∧ ((bulk_step envOk "ch" 0 emptyAcc "x").memb
        = add_bot_to_channel emptyAcc.memb "ch" userX.id "@x" 0
      ∧ (bulk_step envOk "ch" 0 emptyAcc "x").audit
        = emptyAcc.audit ++ [⟨0, .botBulkAdded "ch" userX.id "@x"⟩])
    ∧ ((add_bot_as_admin envVerifyFails [setupCh] emptyMemb [] "x" 0).memb
        = emptyMemb
      ∧ (add_bot_as_admin envVerifyFails [setupCh] emptyMemb [] "x" 0).audit = [])
    ∧ ((add_bot_as_admin envOk [setupCh] emptyMemb [] "x" 0).memb
        = add_bot_to_channel emptyMemb "chid" userX.id "@x" 0
      ∧ (add_bot_as_admin envOk [setupCh] emptyMemb [] "x" 0).audit
        = [⟨0, .botAdded "chid" userX.id "@x"⟩]) := by
  refine ⟨?_, ?_, ?_, ?_⟩
  · exact verification_gates_membership_persistence.1 envVerifyFails "ch" 0
      emptyAcc "x" userX rfl (by decide)
  · exact verification_gates_membership_persistence.2.1 envOk "ch" 0
      emptyAcc "x" userX rfl (by decide) (by decide) rfl (by decide)
  · exact verification_gates_membership_persistence.2.2.1 envVerifyFails
      [setupCh] emptyMemb [] "x" 0 userX rfl (by decide)
  · exact verification_gates_membership_persistence.2.2.2 envOk [setupCh]
      emptyMemb [] "x" 0 userX (by decide) (by decide) rfl (by decide)
      (by decide) rfl (by decide)

/-- Claim C5 (counterexample): the single-add capacity rejection does not
report the free slots.  With the active setup limiting the channel to
`max_bots = 3` and five bots already tracked, the free-text add request is
rejected with the channel-full reply, which carries only the `max_bots`
limit: no reply of the run carries a free-slot count (only the bulk
rejection constructor does), so the claim's "capacity failure reporting
the free slots" is false for the single-add workflow.  The rejection does
happen before any platform call (empty trace). -/
theorem single_add_capacity_rejection_lacks_free_slot_count :
    get_added_bots_count membCh5 "ch" = 5
    ∧ (add_bot_as_admin envOk [⟨"ch", "disp", "plink", 3, true, 0⟩] membCh5
        [] "x" 2).replies = [.singleChannelFull 3]
    ∧ ((add_bot_as_admin envOk [⟨"ch", "disp", "plink", 3, true, 0⟩] membCh5
        [] "x" 2).replies.any reportsFreeSlots) = false
    ∧ (add_bot_as_admin envOk [⟨"ch", "disp", "plink", 3, true, 0⟩] membCh5
        [] "x" 2).trace = [] := by
  refine ⟨by decide, by decide, by decide, by decide⟩

/-- Claim C5 (amended): for both workflows, when the capacity check fails
(single: the tracked count has reached `max_bots` of the setup used; bulk:
the number of candidates exceeds the remaining free slots) the request is
rejected with a capacity failure and the trace of platform calls is empty:
no account lookup, promotion or verification is issued, and the stores are
untouched.  The bulk rejection reply reports the number of free slots
together with the limit; the single-add rejection reply reports only the
`max_bots` limit (channel full), not the free-slot count. -/
theorem capacity_rejection_before_any_platform_call :
    (∀ (env : PlatformEnv) (setups : List Setup) (memb : MembStore)
        (audit : List AuditEntry) (rawArg : String) (explicit : Option String)
        (now : Int),
      strFalsy (commandChanKey setups explicit) = false →
      ((bulkBotList rawArg).length : Int) >
        (get_active_setup setups).2.2.2
          - get_added_bots_count memb ((commandChanKey setups explicit).getD "") →
      (bulk_add_bots env setups memb audit rawArg explicit now).replies
          = [.capacityFull
              ((get_active_setup setups).2.2.2
                - get_added_bots_count memb ((commandChanKey setups explicit).getD ""))
              (get_active_setup setups).2.2.2]
        ∧ (bulk_add_bots env setups memb audit rawArg explicit now).trace = []
        ∧ (bulk_add_bots env setups memb audit rawArg explicit now).memb = memb
        ∧ (bulk_add_bots env setups memb audit rawArg explicit now).audit = audit)
    ∧ (∀ (env : PlatformEnv) (setups : List Setup) (memb : MembStore)
        (audit : List AuditEntry) (text : String) (now : Int),
      strFalsy (get_active_setup setups).2.2.1 = false →
      ((get_added_bots_count memb ((get_active_setup setups).2.2.1.getD "")) : Int)
        ≥ (get_active_setup setups).2.2.2 →
      (add_bot_as_admin env setups memb audit text now).replies
          = [.singleChannelFull (get_active_setup setups).2.2.2]
        ∧ (add_bot_as_admin env setups memb audit text now).trace = []
        ∧ (add_bot_as_admin env setups memb audit text now).memb = memb
        ∧ (add_bot_as_admin env setups memb audit text now).audit = audit) := by
  constructor
  · intro env setups memb audit rawArg explicit now hchan hcap
    simp only [bulk_add_bots, hchan, Bool.false_eq_true, if_false, if_pos hcap]
    simp
  · intro env setups memb audit text now hchan hfull
    simp only [add_bot_as_admin, hchan, Bool.false_eq_true, if_false,
      if_pos hfull]
    simp

/-- Witness for the C5 theorem: a channel with `max_bots = 1` and one bot
already tracked rejects a bulk request of one candidate and a single-add
request, each with the capacity reply, an empty platform trace and
untouched stores. -/
theorem capacity_rejection_before_any_platform_call_witness :
    ((bulk_add_bots envOk [⟨"chid", "ch", "plink", 1, true, 0⟩] membCh111 []
        "x" none 3).replies = [.capacityFull 0 1]
      ∧ (bulk_add_bots envOk [⟨"chid", "ch", "plink", 1, true, 0⟩] membCh111 []
        "x" none 3).trace = [])
    ∧ ((add_bot_as_admin envOk [⟨"ch", "disp", "plink", 1, true, 0⟩] membCh111 []
        "x" 3).replies = [.singleChannelFull 1]
      ∧ (add_bot_as_admin envOk [⟨"ch", "disp", "plink", 1, true, 0⟩] membCh111 []
        "x" 3).trace = []) := by
  constructor
  · have h := capacity_rejection_before_any_platform_call.1 envOk
      [⟨"chid", "ch", "plink", 1, true, 0⟩] membCh111 [] "x" none 3
      (by decide) (by decide)
    exact ⟨h.1, h.2.1⟩
  · have h := capacity_rejection_before_any_platform_call.2 envOk
      [⟨"ch", "disp", "plink", 1, true, 0⟩] membCh111 [] "x" 3
      (by decide) (by decide)
    exact ⟨h.1, h.2.1⟩

/-- A membership store holding bot 9 under the key -2. -/
def membM2 : MembStore :=
  fun c => if c = "-2" then some ⟨[9], "@z", 0⟩ else none

/-- Membership in an if-then-else between the empty list and a singleton
forces equality with the singleton element. -/
theorem mem_ite_nil_singleton {x y : Reply} {c : Prop} [Decidable c]
    (h : x ∈ (if c then ([] : List Reply) else [y])) : x = y := by
  by_cases hc : c
  · rw [if_pos hc] at h
    exact absurd h (List.not_mem_nil x)
  · rw [if_neg hc] at h
    exact List.mem_singleton.mp h

/-- Claim C10: `/bulkadd` with an explicit target channel that differs from
the active one still takes `max_bots` from the ACTIVE setup (the capacity
rejection reports `active.max_bots - count(target)` and compares against
the active limit) and the success summary still carries the ACTIVE setup's
post link. -/
theorem bulkadd_explicit_target_uses_active_setup_limits
    (env : PlatformEnv) (setups : List Setup) (memb : MembStore)
    (audit : List AuditEntry) (rawArg c : String) (now : Int) (A : Setup)
    (hfind : setups.find? (fun d => d.is_active) = some A)
    (hc : c ≠ "") (hne : c ≠ A.channel_id) :
    ((((bulkBotList rawArg).length : Int)
        > A.max_bots - get_added_bots_count memb c →
      (bulk_add_bots env setups memb audit rawArg (some c) now).replies
          = [.capacityFull (A.max_bots - get_added_bots_count memb c) A.max_bots]
        ∧ (bulk_add_bots env setups memb audit rawArg (some c) now).trace = []))
    ∧ (∀ (s f : Nat) (ch : String) (p : Option String),
        Reply.bulkSummary s f ch p
          ∈ (bulk_add_bots env setups memb audit rawArg (some c) now).replies →
        p = some A.post_link) := by
  have hgas : get_active_setup setups
      = (some A.channel, some A.post_link, some A.channel_id, A.max_bots) := by
    simp [get_active_setup, hfind]
  have hfalsy : strFalsy (some c) = false := by
    simp [strFalsy, hc]
  constructor
  · intro hcap
    simp only [bulk_add_bots, commandChanKey, hgas, hfalsy,
      Bool.false_eq_true, if_false, Option.getD_some] at hcap ⊢
    rw [if_pos hcap]
    exact ⟨rfl, rfl⟩
  · intro s f ch p hp
    simp only [bulk_add_bots, commandChanKey, hgas, hfalsy,
      Bool.false_eq_true, if_false, Option.getD_some] at hp
    split at hp
    · simp at hp
    · simp only [] at hp
      split at hp
      · simp only [List.mem_append, List.mem_singleton] at hp
        rcases hp with h | h
        · injection h with h1 h2 h3 h4
        · exact Reply.noConfusion (mem_ite_nil_singleton h)
      · simp at hp

/-- Witness for the C10 theorem: active setup with `max_bots = 1` and post
link postA; the explicit target -2 already tracks one bot, so a one-element
bulk request is rejected reporting the active limit. -/
theorem bulkadd_explicit_target_uses_active_setup_limits_witness :
    (bulk_add_bots envOk [⟨"-1", "@a", "postA", 1, true, 0⟩] membM2 [] "x"
        (some "-2") 3).replies = [.capacityFull 0 1]
    ∧ (bulk_add_bots envOk [⟨"-1", "@a", "postA", 1, true, 0⟩] membM2 [] "x"
        (some "-2") 3).trace = [] := by
  have h := (bulkadd_explicit_target_uses_active_setup_limits envOk
    [⟨"-1", "@a", "postA", 1, true, 0⟩] membM2 [] "x" "-2" 3
    ⟨"-1", "@a", "postA", 1, true, 0⟩ (by decide) (by decide) (by decide)).1
    (by decide)
  exact h

/-- The reason part of `pyTake50` never exceeds 50 characters. -/
theorem length_pyTake50 (s : String) : (pyTake50 s).length ≤ 50 := by
  have h : (pyTake50 s).length = (s.toList.take 50).length := rfl
  rw [h, List.length_take]
  exact Nat.min_le_left _ _

/-- Each candidate iteration of the bulk loop classifies exactly one
candidate: the sum of the success counter and the failure count grows by
exactly one. -/
theorem bulk_step_sum (env : PlatformEnv) (cid : String) (now : Int)
    (acc : BulkAcc) (raw : String) :
    (bulk_step env cid now acc raw).success
        + (bulk_step env cid now acc raw).failed.length
      = acc.success + acc.failed.length + 1 := by
  simp only [bulk_step]
  repeat' split
  all_goals simp [List.length_append]
  all_goals omega

/-- Each candidate iteration either leaves the failure list unchanged (the
success branch) or appends one entry of the form `username: reason` with
the reason at most 50 characters long. -/
theorem bulk_step_failed_shape (env : PlatformEnv) (cid : String) (now : Int)
    (acc : BulkAcc) (raw : String) :
    (bulk_step env cid now acc raw).failed = acc.failed
    ∨ ∃ r, (bulk_step env cid now acc raw).failed
          = acc.failed ++ [normalizeUsername raw ++ ": " ++ r]
        ∧ r.length ≤ 50 := by
  have e1 : ((": " ++ "Not a bot") : String) = ": Not a bot" := by decide
  have e2 : ((": " ++ "Already added") : String) = ": Already added" := by decide
  have e3 : ((": " ++ "Promotion failed (verify perms)") : String)
      = ": Promotion failed (verify perms)" := by decide
  have hnb : (normalizeUsername raw ++ ": Not a bot")
      = normalizeUsername raw ++ ": " ++ "Not a bot" := by
    rw [String.append_assoc, e1]
  have haa : (normalizeUsername raw ++ ": Already added")
      = normalizeUsername raw ++ ": " ++ "Already added" := by
    rw [String.append_assoc, e2]
  have hpf : (normalizeUsername raw ++ ": Promotion failed (verify perms)")
      = normalizeUsername raw ++ ": " ++ "Promotion failed (verify perms)" := by
    rw [String.append_assoc, e3]
  simp only [bulk_step]
  split
  · exact .inr ⟨_, rfl, length_pyTake50 _⟩
  · split
    · exact .inr ⟨"Not a bot", by simp only [hnb], by decide⟩
    · split
      · exact .inr ⟨"Already added", by simp only [haa], by decide⟩
      · split
        · exact .inr ⟨_, rfl, length_pyTake50 _⟩
        · split
          · exact .inr ⟨"Promotion failed (verify perms)",
              by simp only [hpf], by decide⟩
          · exact .inl rfl

/-- Folding the bulk loop over the whole candidate list classifies every
candidate exactly once. -/
theorem bulk_fold_sum (env : PlatformEnv) (cid : String) (now : Int)
    (l : List String) (acc : BulkAcc) :
    (l.foldl (bulk_step env cid now) acc).success
        + (l.foldl (bulk_step env cid now) acc).failed.length
      = acc.success + acc.failed.length + l.length := by
  induction l generalizing acc with
  | nil => simp
  | cons x xs ih =>
    simp only [List.foldl_cons, List.length_cons]
    rw [ih, bulk_step_sum]
    omega

/-- Folding the bulk loop preserves the shape of the failure entries. -/
theorem bulk_fold_failed_shape (env : PlatformEnv) (cid : String) (now : Int)
    (l : List String) (acc : BulkAcc)
    (hacc : ∀ f ∈ acc.failed, ∃ u r, f = u ++ ": " ++ r ∧ r.length ≤ 50) :
    ∀ f ∈ (l.foldl (bulk_step env cid now) acc).failed,
      ∃ u r, f = u ++ ": " ++ r ∧ r.length ≤ 50 := by
  induction l generalizing acc with
  | nil => exact hacc
  | cons x xs ih =>
    simp only [List.foldl_cons]
    refine ih _ ?_
    rcases bulk_step_failed_shape env cid now acc x with h | ⟨r, h, hr⟩
    · rw [h]; exact hacc
    · rw [h]
      intro f hf
      rcases List.mem_append.mp hf with hf1 | hf2
      · exact hacc f hf1
      · rcases List.mem_singleton.mp hf2 with rfl
        exact ⟨normalizeUsername x, r, rfl, hr⟩

/-- Claim C3 (counterexample): a bulk request that passes the capacity
check but in which zero candidates succeed does NOT report the failure
entries.  With one candidate whose resolution raises boom, the handler
accumulates the failure entry `@x: boom` but replies only with the generic
no-success message, so the user is never shown the N−K = 1 failure entries
the claim promises. -/
theorem bulkadd_zero_success_reports_no_failure_entries :
    bulkBotList "x" = ["x"]
    ∧ (bulk_add_bots envResolveFails [setupCh] emptyMemb [] "x" none 0).success = 0
    ∧ (bulk_add_bots envResolveFails [setupCh] emptyMemb [] "x" none 0).failed
        = ["@x: boom"]
    ∧ (bulk_add_bots envResolveFails [setupCh] emptyMemb [] "x" none 0).replies
        = [.bulkNoSuccess] := by
  refine ⟨by decide, by decide, by decide, by decide⟩

/-- Claim C3 (amended): a bulk request of N candidates that passes the
capacity check processes all N candidates without stopping early,
accumulating a success count K and N−K failure entries, each of the form
username: reason with the reason at most 50 characters (the first 50
characters of the exception message for exceptions); when K is at least 1
the handler reports the summary (success count, failure count, post link)
followed by the failure entries; when K = 0 it reports only the generic
no-success message, without the individual failure entries. -/
theorem bulkadd_partial_failure_semantics (env : PlatformEnv)
    (setups : List Setup) (memb : MembStore) (audit : List AuditEntry)
    (rawArg : String) (explicit : Option String) (now : Int) (out : BulkOut)
    (hout : out = bulk_add_bots env setups memb audit rawArg explicit now)
    (hchan : strFalsy (commandChanKey setups explicit) = false)
    (hcap : ¬(((bulkBotList rawArg).length : Int) >
      (get_active_setup setups).2.2.2
        - get_added_bots_count memb ((commandChanKey setups explicit).getD ""))) :
    out.success + out.failed.length = (bulkBotList rawArg).length
    ∧ (∀ f ∈ out.failed, ∃ u r, f = u ++ ": " ++ r ∧ r.length ≤ 50)
    ∧ (0 < out.success → out.replies
        = Reply.bulkSummary out.success out.failed.length
            ((commandChanKey setups explicit).getD "")
            (get_active_setup setups).2.1
          :: (if out.failed = [] then []
              else [Reply.bulkFailures out.failed]))
    ∧ (out.success = 0 → out.replies = [.bulkNoSuccess]) := by
  subst hout
  simp only [bulk_add_bots, hchan, Bool.false_eq_true, if_false,
    if_neg hcap]
  refine ⟨?_, ?_, ?_, ?_⟩
  · have h := bulk_fold_sum env ((commandChanKey setups explicit).getD "")
      now (bulkBotList rawArg) ⟨memb, audit, 0, [], []⟩
    simpa using h
  · have h := bulk_fold_failed_shape env
      ((commandChanKey setups explicit).getD "") now (bulkBotList rawArg)
      ⟨memb, audit, 0, [], []⟩ (by intro f hf; exact absurd hf (List.not_mem_nil f))
    simpa using h
  · intro hs
    rw [if_pos hs]
    simp
  · intro hs
    rw [hs]
    simp

/-- Witness for the amended C3 theorem: two candidates resolving to the
same bot id, so the second one fails the duplicate check: the run
classifies both (K = 1 success plus one failure entry). -/
theorem bulkadd_partial_failure_semantics_witness :
    (bulk_add_bots envOk [setupCh] emptyMemb [] "x,y" none 7).success
      + (bulk_add_bots envOk [setupCh] emptyMemb [] "x,y" none 7).failed.length
      = 2
    ∧ (bulk_add_bots envOk [setupCh] emptyMemb [] "x,y" none 7).replies
      = Reply.bulkSummary 1 1 "ch" (some "plink")
        :: [Reply.bulkFailures ["@y: Already added"]] := by
  have h := bulkadd_partial_failure_semantics envOk [setupCh] emptyMemb []
    "x,y" none 7 _ rfl (by decide) (by decide)
  refine ⟨?_, ?_⟩
  · have h1 := h.1
    rw [show bulkBotList "x,y" = ["x", "y"] from by decide] at h1
    simpa using h1
  · have h3 := h.2.2.1 (by decide)
    rw [h3]
    rw [show (bulk_add_bots envOk [setupCh] emptyMemb [] "x,y" none 7).success
        = 1 from by decide,
      show (bulk_add_bots envOk [setupCh] emptyMemb [] "x,y" none 7).failed
        = ["@y: Already added"] from by decide]
    rfl

/-- The upsert either replaces in place (keys unchanged, key present) or
appends the new key at the end (key was absent). -/
theorem upsert_keys (cid chan link : String) (mb : Int) (act : Bool)
    (now : Int) : ∀ docs : List Setup,
    ((upsert_setup docs cid chan link mb act now).map Setup.channel_id
        = docs.map Setup.channel_id
      ∧ cid ∈ docs.map Setup.channel_id)
    ∨ ((upsert_setup docs cid chan link mb act now).map Setup.channel_id
        = docs.map Setup.channel_id ++ [cid]
      ∧ cid ∉ docs.map Setup.channel_id) := by
  intro docs
  induction docs with
  | nil =>
    right
    exact ⟨rfl, by simp⟩
  | cons d rest ih =>
    by_cases h : d.channel_id = cid
    · left
      refine ⟨?_, by simp [h]⟩
      simp [upsert_setup, h]
    · rcases ih with ⟨he, hm⟩ | ⟨he, hm⟩
      · left
        refine ⟨?_, by simp [hm]⟩
        simp [upsert_setup, h, he]
      · right
        refine ⟨?_, ?_⟩
        · simp [upsert_setup, h, he]
        · simp only [List.map_cons, List.mem_cons]
          rintro (hc | hc)
          · exact h hc.symm
          · exact hm hc

/-- The upserted document is always a member of the result. -/
theorem upsert_newdoc_mem (cid chan link : String) (mb : Int) (act : Bool)
    (now : Int) : ∀ docs : List Setup,
    (⟨cid, chan, link, mb, act, now⟩ : Setup)
      ∈ upsert_setup docs cid chan link mb act now := by
  intro docs
  induction docs with
  | nil => simp [upsert_setup]
  | cons d rest ih =>
    by_cases h : d.channel_id = cid
    · simp [upsert_setup, h]
    · simp only [upsert_setup, if_neg h, List.mem_cons]
      exact .inr ih

/-- Under unique keys, any member of the upsert result carrying the target
key is the upserted document itself. -/
theorem upsert_mem_key (cid chan link : String) (mb : Int) (act : Bool)
    (now : Int) : ∀ (docs : List Setup) (d : Setup),
    (docs.map Setup.channel_id).Nodup →
    d ∈ upsert_setup docs cid chan link mb act now →
    d.channel_id = cid →
    d = ⟨cid, chan, link, mb, act, now⟩ := by
  intro docs
  induction docs with
  | nil =>
    intro d _ hm _
    simpa [upsert_setup] using hm
  | cons d0 rest ih =>
    intro d hnd hm hk
    by_cases h : d0.channel_id = cid
    · rw [upsert_setup, if_pos h] at hm
      rcases List.mem_cons.mp hm with rfl | hm
      · rfl
      · exfalso
        have hmem : d.channel_id ∈ rest.map Setup.channel_id :=
          List.mem_map_of_mem Setup.channel_id hm
        rw [hk, ← h] at hmem
        exact (List.nodup_cons.mp (by simpa using hnd)).1 hmem
    · rw [upsert_setup, if_neg h] at hm
      rcases List.mem_cons.mp hm with rfl | hm
      · exact absurd hk h
      · exact ih d (List.nodup_cons.mp (by simpa using hnd)).2 hm hk

/-- Deactivation does not change the key list. -/
theorem deactivate_keys (cid : String) : ∀ docs : List Setup,
    (deactivate_others docs cid).map Setup.channel_id
      = docs.map Setup.channel_id := by
  intro docs
  induction docs with
  | nil => rfl
  | cons d rest ih =>
    by_cases hd : d.channel_id ≠ cid
    · simp only [deactivate_others, List.map_cons, if_pos hd] at ih ⊢
      rw [ih]
    · simp only [deactivate_others, List.map_cons, if_neg hd] at ih ⊢
      rw [ih]

/-- After deactivation, every document with a different key is inactive. -/
theorem deactivate_mem_ne (docs : List Setup) (cid : String) :
    ∀ d ∈ deactivate_others docs cid, d.channel_id ≠ cid →
      d.is_active = false := by
  intro d hd hk
  rcases List.mem_map.mp hd with ⟨d0, _, rfl⟩
  by_cases h : d0.channel_id ≠ cid
  · rw [if_pos h]
  · rw [if_neg h] at hk ⊢
    exact absurd (fun hc => hk hc) h

/-- A member of the deactivation result carrying the target key was already
a member of the input, unchanged. -/
theorem deactivate_mem_key (docs : List Setup) (cid : String) :
    ∀ d ∈ deactivate_others docs cid, d.channel_id = cid → d ∈ docs := by
  intro d hd hk
  rcases List.mem_map.mp hd with ⟨d0, hd0, rfl⟩
  by_cases h : d0.channel_id ≠ cid
  · rw [if_pos h] at hk
    exact absurd hk h
  · rw [if_neg h]
    exact hd0

/-- Claim C6: from any owner state with unique channel keys in which some
setup A is active, running the activation sequence for channel B (the
upsert marking B active followed by the deactivation of every other setup,
as `save_setup` with `is_active = true` performs it) leaves exactly one
active setup: a document is active exactly when its key is B, and the
number of active documents is exactly one. -/
theorem activation_leaves_exactly_one_active (docs : List Setup)
    (audit : List AuditEntry) (A : Setup) (B chan link : String) (mb : Int)
    (now : Int) (hnd : (docs.map Setup.channel_id).Nodup)
    (hA : A ∈ docs) (hAact : A.is_active = true) :
    (∀ d ∈ (save_setup docs audit B chan link mb true now).1,
      (d.is_active = true ↔ d.channel_id = B))
    ∧ ((save_setup docs audit B chan link mb true now).1.countP
        (fun d => d.is_active)) = 1 := by
  have hsave : (save_setup docs audit B chan link mb true now).1
      = deactivate_others (upsert_setup docs B chan link mb true now) B := by
    simp [save_setup]
  have hUkeys := upsert_keys B chan link mb true now docs
  have hndU : ((upsert_setup docs B chan link mb true now).map
      Setup.channel_id).Nodup := by
    rcases hUkeys with ⟨he, _⟩ | ⟨he, hm⟩
    · rw [he]; exact hnd
    · rw [he, List.nodup_append]
      refine ⟨hnd, List.nodup_singleton B, ?_⟩
      simp only [List.disjoint_singleton]
      intro h
      exact hm h
  have hBU : B ∈ (upsert_setup docs B chan link mb true now).map
      Setup.channel_id := by
    have := upsert_newdoc_mem B chan link mb true now docs
    exact List.mem_map.mpr ⟨_, this, rfl⟩
  have hiff : ∀ d ∈ (save_setup docs audit B chan link mb true now).1,
      (d.is_active = true ↔ d.channel_id = B) := by
    intro d hd
    rw [hsave] at hd
    constructor
    · intro hact
      by_contra hk
      rw [deactivate_mem_ne _ _ d hd hk] at hact
      exact Bool.false_ne_true hact
    · intro hk
      have hdU := deactivate_mem_key _ _ d hd hk
      have := upsert_mem_key B chan link mb true now docs d hnd hdU hk
      rw [this]
  refine ⟨hiff, ?_⟩
  have hcong : ∀ d ∈ (save_setup docs audit B chan link mb true now).1,
      (d.is_active = true ↔ (d.channel_id == B) = true) := by
    intro d hd
    rw [beq_iff_eq]
    exact hiff d hd
  have h1 := List.countP_congr hcong
  have h2 : ((save_setup docs audit B chan link mb true now).1.countP
        (fun d => d.channel_id == B))
      = (((save_setup docs audit B chan link mb true now).1.map
          Setup.channel_id).countP (fun k => k == B)) := by
    exact (List.countP_map (fun k => k == B) Setup.channel_id
      ((save_setup docs audit B chan link mb true now).1)).symm
  have hkeys : ((save_setup docs audit B chan link mb true now).1.map
        Setup.channel_id)
      = (upsert_setup docs B chan link mb true now).map Setup.channel_id := by
    rw [hsave]
    exact deactivate_keys B _
  have h4 : (((save_setup docs audit B chan link mb true now).1.map
      Setup.channel_id).count B) = 1 := by
    rw [hkeys]
    exact List.count_eq_one_of_mem hndU hBU
  rw [h1, h2]
  exact h4

/-- Witness for the C6 theorem: activating the new channel B while A was
active leaves exactly one active setup. -/
theorem activation_leaves_exactly_one_active_witness :
    ((save_setup [⟨"A", "@a", "pa", 20, true, 0⟩, ⟨"C", "@c", "pc", 20, false, 0⟩]
        [] "B" "" "" 20 true 9).1.countP (fun d => d.is_active)) = 1 :=
  (activation_leaves_exactly_one_active
    [⟨"A", "@a", "pa", 20, true, 0⟩, ⟨"C", "@c", "pc", 20, false, 0⟩] []
    ⟨"A", "@a", "pa", 20, true, 0⟩ "B" "" "" 20 9 (by decide) (by decide)
    rfl).2

end GitaBot
